import Mathlib

/-!
# Freies Radio fuer Stuttgart: preview UI and programme endpoint

A shallow embedding of

* `react/src/PreviewApp.jsx`: the `PreviewApp` component (its five state cells, the
  `useEffect` on `[active]`, the two loaders `loadToday` / `loadWeek`, and the element tree
  it returns), and
* `api/programm.js`: the request handler that serves `data/programm.json`.

JavaScript values that come out of `JSON.parse` / `res.json()` are modelled by `Json`;
`undefined` is `none : Option Json`. A thrown exception is `Except.error msg`.
-/

namespace FreiesRadio

/-! ## JSON values -/

/-- A value produced by `JSON.parse` / `Response.json()`. A number is kept as the decimal
literal `mantissa * 10 ^ exponent`; the program never computes with the numbers it reads. -/
inductive Json where
  | null
  | bool (b : Bool)
  | num (mantissa : Int) (exponent : Int)
  | str (s : String)
  | arr (items : List Json)
  | obj (fields : List (String × Json))

/-- The number of UTF-16 code units of a string: JavaScript's `s.length`. -/
def utf16Length (s : String) : Nat :=
  (s.data.map fun c => if c.val < 0x10000 then 1 else 2).sum

/-- JavaScript property read `v.name` for the property names the program uses on parsed data
(`date`, `start`, `end`, `show`, `episode`, `items`), none of which is an own or inherited
property of a string, number, boolean or array. Reading a property of `null` throws. -/
def Json.getProp (v : Json) (name : String) : Except String (Option Json) :=
  match v with
  | .null => .error ("Cannot read properties of null (reading \x27" ++ name ++ "\x27)")
  | .obj fields => .ok (fields.lookup name)
  | _ => .ok none

/-- JavaScript `v.length`. -/
def Json.getLength (v : Json) : Except String (Option Json) :=
  match v with
  | .null => .error "Cannot read properties of null (reading \x27length\x27)"
  | .arr items => .ok (some (.num items.length 0))
  | .str s => .ok (some (.num (utf16Length s) 0))
  | .obj fields => .ok (fields.lookup "length")
  | _ => .ok none

/-! ## `PreviewApp`: constants and state -/

def ACCENT : String := "#FF6600"

/-- The constant `API_BASE = import.meta.env?.VITE_API_BASE || 'http://localhost:5000'`; the
argument is the build-time variable (`none` when unset). `||` also skips the empty string. -/
def API_BASE (viteApiBase : Option String) : String :=
  match viteApiBase with
  | some s => if s = "" then "http://localhost:5000" else s
  | none => "http://localhost:5000"

/-- The table `tabs` of `(id, label)`. -/
def tabs : List (String × String) :=
  [("live", "Live"), ("today", "Heute"), ("week", "Mediathek"), ("more", "Mehr")]

/-- The five `useState` cells of `PreviewApp`. -/
structure ViewState where
  active : String
  today : Json
  week : Json
  loading : Bool
  error : String

/-- The initial values passed to `useState`. -/
def ViewState.initial : ViewState :=
  { active := "live", today := .arr [], week := .arr [], loading := false, error := "" }

/-- The two async functions of the component; also names the continuation that runs when
the request issued by that function settles. -/
inductive Loader where
  | loadToday
  | loadWeek
  deriving DecidableEq, Repr

/-- What one `await fetch(url)` followed by `await res.json()` can yield: the fetch promise
rejects, or it resolves to a response with its `ok` flag and the outcome of `res.json()`. -/
inductive FetchOutcome where
  | rejected (message : String)
  | response (ok : Bool) (json : Except String Json)

/-- The observable actions of the component: a call of one of the five state setters, or a
call of `fetch(url)` whose continuation is the rest of the named loader. -/
inductive Effect where
  | setActive (id : String)
  | setToday (v : Json)
  | setWeek (v : Json)
  | setLoading (b : Bool)
  | setError (s : String)
  | fetch (url : String) (k : Loader)

/-- The effect of one action on the state cells. Every setter call in the source passes a
value (never an updater function), so a call overwrites its cell. -/
def Effect.apply (s : ViewState) : Effect → ViewState
  | .setActive id => { s with active := id }
  | .setToday v => { s with today := v }
  | .setWeek v => { s with week := v }
  | .setLoading b => { s with loading := b }
  | .setError e => { s with error := e }
  | .fetch _ _ => s

def applyAll (s : ViewState) (es : List Effect) : ViewState :=
  es.foldl Effect.apply s

/-- The URLs requested, in order. -/
def requests : List Effect → List String
  | [] => []
  | .fetch url _ :: es => url :: requests es
  | _ :: es => requests es

/-- The values written to `loading`, in order. -/
def loadingWrites : List Effect → List Bool
  | [] => []
  | .setLoading b :: es => b :: loadingWrites es
  | _ :: es => loadingWrites es

/-- The function `loadToday` up to and including its call of `fetch`. -/
def loadTodayStart (base : String) : List Effect :=
  [.setLoading true, .setError "", .fetch (base ++ "/mediathek/today") .loadToday]

/-- The function `loadToday` after its request has settled: the rest of the `try` block,
the `catch` block on any throw, then the `finally` block. No setter is called between
`await fetch(...)` and `await res.json()`, so the two awaits are taken as one step. -/
def loadTodayFinish (o : FetchOutcome) : List Effect :=
  (match o with
    | .rejected _ => [.setError "Konnte Daten nicht laden."]
    | .response ok json =>
      if !ok then [.setError "Konnte Daten nicht laden."]
      else
        match json with
        | .error _ => [.setError "Konnte Daten nicht laden."]
        | .ok body => [.setToday body]) ++
  [.setLoading false]

/-- The function `loadWeek` up to and including its call of `fetch`. -/
def loadWeekStart (base : String) : List Effect :=
  [.setLoading true, .setError "", .fetch (base ++ "/mediathek/week") .loadWeek]

/-- The function `loadWeek` after its request has settled. -/
def loadWeekFinish (o : FetchOutcome) : List Effect :=
  (match o with
    | .rejected _ => [.setError "Konnte Daten nicht laden."]
    | .response ok json =>
      if !ok then [.setError "Konnte Daten nicht laden."]
      else
        match json with
        | .error _ => [.setError "Konnte Daten nicht laden."]
        | .ok body => [.setWeek body]) ++
  [.setLoading false]

/-- The first part of the named loader. -/
def Loader.start (base : String) : Loader → List Effect
  | .loadToday => loadTodayStart base
  | .loadWeek => loadWeekStart base

/-- The continuation of the named loader. -/
def Loader.finish : Loader → FetchOutcome → List Effect
  | .loadToday => loadTodayFinish
  | .loadWeek => loadWeekFinish

/-- All actions of one run of a loader, in program order. -/
def Loader.run (base : String) (l : Loader) (o : FetchOutcome) : List Effect :=
  l.start base ++ l.finish o

/-- The body of `useEffect(..., [active])`. -/
def activeEffect (base : String) (active : String) : List Effect :=
  (if active = "today" then loadTodayStart base else []) ++
  (if active = "week" then loadWeekStart base else [])

/-! ## The element tree returned by `PreviewApp` -/

/-- A React child: a host element (its tag, the name of its entry in `styles`, its `onClick`
action, its children), a string literal, the value of a JavaScript expression read from
fetched data, a boolean, or an array of children. React renders nothing for a boolean, for
`undefined`, for `null` and for the empty string. The `key` props are not part of the output
and are left out; the property reads they perform are kept. -/
inductive VNode where
  | elem (tag : String) (style : String) (onClick : Option Effect) (children : List VNode)
  | text (s : String)
  | value (v : Option Json)
  | bool (b : Bool)
  | list (items : List VNode)

/-- The method `Array.prototype.map` with a callback that may throw: the elements are visited
in order and the first exception ends the loop. -/
def mapThrowing {α β : Type} (f : α → Except String β) : List α → Except String (List β)
  | [] => .ok []
  | x :: xs =>
    match f x with
    | .error e => .error e
    | .ok y =>
      match mapThrowing f xs with
      | .error e => .error e
      | .ok ys => .ok (y :: ys)

/-- The memoised `header`. -/
def header : VNode :=
  .elem "header" "header" none
    [.elem "div" "" none
      [.elem "div" "title" none [.text "Freies Radio fuer Stuttgart"],
       .elem "div" "subtitle" none [.text "Live-Stream · Programm · Mediathek"]],
     .elem "div" "pill" none [.text "Live-Sender"]]

/-- A schedule card: the outer `div` and its three inner `div`s, with the property reads of
the children in source order. In the week view the key reads `day.date` and `item.start`
follow; both have been read without a throw by then. -/
def cardBody (item : Json) : Except String VNode := do
  let start ← item.getProp "start"
  let stop ← item.getProp "end"
  let title ← item.getProp "show"
  let episode ← item.getProp "episode"
  pure (.elem "div" "card" none
    [.elem "div" "time" none [.value start, .text " - ", .value stop],
     .elem "div" "cardTitle" none [.value title],
     .elem "div" "cardSubtitle" none [.value episode]])

/-- One card of the today view. The compiled element call takes the props, children
included, before the key, so the reads of the children come first and the reads of the key
`item.date`, `item.start` after them. -/
def todayCard (item : Json) : Except String VNode := do
  let card ← cardBody item
  let _ ← item.getProp "date"
  let _ ← item.getProp "start"
  pure card

/-- The expression `today.map((item) => ...)`: only an array has a `map` method. -/
def todayCards (today : Json) : Except String VNode :=
  match today with
  | .arr items => (mapThrowing todayCard items).map VNode.list
  | .null => .error "Cannot read properties of null (reading \x27map\x27)"
  | _ => .error "today.map is not a function"

/-- The element `<div style={styles.loading}>Laedt...</div>`. -/
def loadingDiv : VNode := .elem "div" "loading" none [.text "Laedt..."]

/-- The element `<div style={styles.error}>{error}</div>`. -/
def errorDiv (error : String) : VNode := .elem "div" "error" none [.text error]

/-- The expression `loading && <div ...>`. -/
def loadingSlot (s : ViewState) : VNode :=
  if s.loading then loadingDiv else .bool false

/-- The expression `error && <div ...>`; the empty string is falsy and is the value then. -/
def errorSlot (s : ViewState) : VNode :=
  if s.error = "" then .text "" else errorDiv s.error

/-- The `<section>` of the today view. -/
def todaySection (s : ViewState) : Except String VNode := do
  let cards ← todayCards s.today
  pure (.elem "section" "" none
    [.elem "h3" "sectionTitle" none [.text "Heute"], loadingSlot s, errorSlot s, cards])

/-- One day of the week view: the day label and the cards of `day.items`. -/
def dayBlock (day : Json) : Except String VNode := do
  let date ← day.getProp "date"
  let items ← day.getProp "items"
  match items with
  | some (.arr xs) =>
    let cards ← mapThrowing cardBody xs
    pure (.elem "div" "marginBottom: 16" none
      [.elem "div" "dayLabel" none [.value date], .list cards])
  | some .null => .error "Cannot read properties of null (reading \x27map\x27)"
  | none => .error "Cannot read properties of undefined (reading \x27map\x27)"
  | _ => .error "day.items.map is not a function"

/-- The expression `week.map((day) => ...)`. -/
def weekDays (week : Json) : Except String VNode :=
  match week with
  | .arr days => (mapThrowing dayBlock days).map VNode.list
  | .null => .error "Cannot read properties of null (reading \x27map\x27)"
  | _ => .error "week.map is not a function"

/-- The `<section>` of the week view. -/
def weekSection (s : ViewState) : Except String VNode := do
  let days ← weekDays s.week
  pure (.elem "section" "" none
    [.elem "h3" "sectionTitle" none [.text "Letzte 7 Tage"], loadingSlot s, errorSlot s, days])

/-- The `<section>` of the live view. -/
def liveSection : VNode :=
  .elem "section" "liveCard" none
    [.elem "div" "icon" none [.text "🎧"],
     .elem "div" "liveTitle" none [.text "Jetzt live hoeren"],
     .elem "div" "liveStatus" none [.text "Bereit zum Abspielen"],
     .elem "button" "primary" none [.text "Play"]]

/-- The `<section>` of the more view. -/
def moreSection : VNode :=
  .elem "section" "" none
    [.elem "h3" "sectionTitle" none [.text "Mehr"],
     .elem "button" "secondary" none [.text "Website oeffnen"],
     .elem "button" "secondary" none [.text "Impressum"],
     .elem "button" "secondary" none [.text "Datenschutz"]]

/-- One navigation button: `onClick={() => setActive(tab.id)}`. -/
def navButton (s : ViewState) (tab : String × String) : VNode :=
  .elem "button" ("navItem; color: " ++ (if s.active = tab.1 then ACCENT else "#A7B0BD"))
    (some (.setActive tab.1)) [.text tab.2]

/-- The `<nav>`. -/
def nav (s : ViewState) : VNode :=
  .elem "nav" "nav" none [.list (tabs.map (navButton s))]

/-- The element tree returned by `PreviewApp`, or the exception thrown while building it.
`active === x && (...)` does not evaluate its right side when the test fails. -/
def PreviewApp (s : ViewState) : Except String VNode := do
  let liveView := if s.active = "live" then liveSection else .bool false
  let todayView ← if s.active = "today" then todaySection s else pure (.bool false)
  let weekView ← if s.active = "week" then weekSection s else pure (.bool false)
  let moreView := if s.active = "more" then moreSection else .bool false
  pure (.elem "div" "page" none
    [header, .elem "main" "content" none [liveView, todayView, weekView, moreView], nav s])

/-- The typed entity `ScheduleItem` of the data model. -/
structure ScheduleItem where
  date : String
  start : String
  stop : String
  title : String
  episode : String

/-- The JSON object of a schedule item, with the field names the program reads. -/
def ScheduleItem.toJson (i : ScheduleItem) : Json :=
  .obj [("date", .str i.date), ("start", .str i.start), ("end", .str i.stop),
        ("show", .str i.title), ("episode", .str i.episode)]

/-- The typed entity `DaySchedule` of the data model. -/
structure DaySchedule where
  date : String
  items : List ScheduleItem

def DaySchedule.toJson (d : DaySchedule) : Json :=
  .obj [("date", .str d.date), ("items", .arr (d.items.map ScheduleItem.toJson))]

/-- The card the today and week views show for a schedule item: its time range
`start - end`, its show title and its episode. -/
def ScheduleItem.card (i : ScheduleItem) : VNode :=
  .elem "div" "card" none
    [.elem "div" "time" none
       [.value (some (.str i.start)), .text " - ", .value (some (.str i.stop))],
     .elem "div" "cardTitle" none [.value (some (.str i.title))],
     .elem "div" "cardSubtitle" none [.value (some (.str i.episode))]]

/-- The block the week view shows for a day: its label, then one card per item. -/
def DaySchedule.block (d : DaySchedule) : VNode :=
  .elem "div" "marginBottom: 16" none
    [.elem "div" "dayLabel" none [.value (some (.str d.date))],
     .list (d.items.map ScheduleItem.card)]

/-- The children of an element. -/
def VNode.children : VNode → List VNode
  | .elem _ _ _ cs => cs
  | _ => []

/-! ## The component over time -/

/-- The component together with its requests: the state cells, the requests still in flight
(numbered in the order they were issued, each with the loader that awaits it), and the URLs
requested so far. -/
structure Sys where
  view : ViewState
  pending : List (Nat × Loader)
  sent : List String

/-- Carrying out one action: a setter call updates the state cells, a `fetch` call puts a new
request in flight. -/
def Sys.perform1 (sys : Sys) : Effect → Sys
  | .fetch url k =>
    { view := sys.view
      pending := sys.pending ++ [(sys.sent.length, k)]
      sent := sys.sent ++ [url] }
  | e => { view := e.apply sys.view, pending := sys.pending, sent := sys.sent }

def Sys.perform (sys : Sys) (es : List Effect) : Sys :=
  es.foldl Sys.perform1 sys

/-- The component after mounting: the initial state, then the effect for the initial value
of `active`. (Under `React.StrictMode` the effect body runs a second time in development;
for `active = 'live'` the body performs no action either time.) -/
def mount (base : String) : Sys :=
  Sys.perform { view := ViewState.initial, pending := [], sent := [] }
    (activeEffect base ViewState.initial.active)

/-- What can happen to the mounted component: the user clicks the navigation button of a
tab, or a request in flight settles. -/
inductive Event where
  | click (id : String)
  | settle (request : Nat) (o : FetchOutcome)

/-- Whether the render of a state returns a tree, so that React commits it; when
`PreviewApp` throws there is no error boundary (`main.jsx` has none) and React removes the
tree instead. -/
def commits (s : ViewState) : Bool :=
  match PreviewApp s with
  | .ok _ => true
  | .error _ => false

/-- One step. A click calls `setActive(tab.id)`. When this does not change `active`, React
keeps the state and the effect does not run. When it does, the component renders with the
new `active`; the effect with dependency `[active]` runs after that render is committed,
and does not run when the render throws. A settled request continues its loader. The step
is undefined for a click on a button that does not exist and for a request not in flight.

The step gives the values of the state cells. It does not record that the tree is gone
after a render has thrown: from then on the program has no button left to click and ignores
setter calls, so the step describes the program up to and including the first state that
does not render. -/
def step (base : String) (sys : Sys) : Event → Option Sys
  | .click id =>
    if id ∈ tabs.map Prod.fst then
      if id = sys.view.active then some sys
      else if commits (sys.perform [.setActive id]).view then
        some ((sys.perform [.setActive id]).perform (activeEffect base id))
      else some (sys.perform [.setActive id])
    else none
  | .settle n o =>
    match sys.pending.lookup n with
    | none => none
    | some l =>
      some (Sys.perform
        { view := sys.view, pending := sys.pending.filter (fun p => p.1 ≠ n), sent := sys.sent }
        (l.finish o))

/-- A sequence of steps. -/
def runEvents (base : String) (sys : Sys) : List Event → Option Sys
  | [] => some sys
  | e :: es => (step base sys e).bind fun sys1 => runEvents base sys1 es

/-! ## `api/programm.js` -/

/-- What the handler reads from its surroundings: the working directory, `path.join`,
`fs.readFile(path, 'utf-8')` (the contents, or the message of the error it rejects with),
`JSON.parse` (the value, or the message of the error it throws), `process.env.NODE_ENV`, and
the string `new Date().toISOString()` returns. -/
structure HandlerEnv where
  cwd : String
  pathJoin : List String → String
  readFile : String → Except String String
  jsonParse : String → Except String Json
  nodeEnv : Option String
  now : String

/-- The constant `dataPath = path.join(process.cwd(), 'data', 'programm.json')`. -/
def HandlerEnv.dataPath (env : HandlerEnv) : String :=
  env.pathJoin [env.cwd, "data", "programm.json"]

/-- The calls the handler makes on `res` and on `console`. The argument of `json` is the
object literal passed: its fields in order, `none` for a field whose value is `undefined`. -/
inductive Call where
  | setHeader (name : String) (value : String)
  | status (code : Nat)
  | json (fields : List (String × Option Json))
  | consoleError (label : String) (message : String)

/-- The `try` block up to the point where it throws: the calls made, and the message of the
error thrown if any. In `res.status(200).json(...)` the call `res.status(200)` is made
before the object literal is built, so before `programmData.length` can throw. -/
def tryBlock (env : HandlerEnv) : List Call × Option String :=
  match env.readFile env.dataPath with
  | .error msg => ([], some msg)
  | .ok fileContents =>
    match env.jsonParse fileContents with
    | .error msg => ([], some msg)
    | .ok programmData =>
      let hdrs := [Call.setHeader "Access-Control-Allow-Origin" "*",
                   Call.setHeader "Cache-Control" "s-maxage=300, stale-while-revalidate=60"]
      match programmData.getLength with
      | .error msg => (hdrs ++ [Call.status 200], some msg)
      | .ok count =>
        (hdrs ++ [Call.status 200,
                  Call.json [("success", some (.bool true)), ("count", count),
                             ("data", some programmData), ("timestamp", some (.str env.now))]],
         none)

/-- The `catch` block. -/
def catchBlock (env : HandlerEnv) (message : String) : List Call :=
  [Call.consoleError "API Fehler:" message,
   Call.status 500,
   Call.json [("success", some (.bool false)),
              ("error", some (.str "Programmdaten nicht verfügbar")),
              ("details", if env.nodeEnv = some "development" then some (.str message) else none)]]

/-- The exported handler: all calls it makes, in order. -/
def handler (env : HandlerEnv) : List Call :=
  match tryBlock env with
  | (calls, none) => calls
  | (calls, some message) => calls ++ catchBlock env message

/-- The response as the client receives it. -/
structure Response where
  statusCode : Nat
  headers : List (String × String)
  body : Option Json

/-- The serialisation `res.json` applies to an object literal: a field whose value is
`undefined` is left out. -/
def jsonBody (fields : List (String × Option Json)) : Json :=
  .obj (fields.filterMap fun f => f.2.map fun v => (f.1, v))

/-- The response the calls build, starting from a fresh one (status 200, nothing sent). A
header set later is found first. -/
def respond (calls : List Call) : Response :=
  calls.foldl
    (fun r c =>
      match c with
      | .setHeader n v => { r with headers := (n, v) :: r.headers }
      | .status code => { r with statusCode := code }
      | .json fields => { r with body := some (jsonBody fields) }
      | .consoleError _ _ => r)
    { statusCode := 200, headers := [], body := none }

/-- The value of a response header. -/
def Response.header (r : Response) (name : String) : Option String :=
  r.headers.lookup name

/-- The value of a field of a JSON object; `none` when the field is absent. -/
def Json.field (v : Json) (name : String) : Option Json :=
  match v with
  | .obj fields => fields.lookup name
  | _ => none

/-! ## Vocabulary of the properties -/

/-- The list a loader fills: `today` for `loadToday`, `week` for `loadWeek`. -/
def Loader.list : Loader → ViewState → Json
  | .loadToday, s => s.today
  | .loadWeek, s => s.week

/-- The list of the other tab. -/
def Loader.otherList : Loader → ViewState → Json
  | .loadToday, s => s.week
  | .loadWeek, s => s.today

/-- The failure kinds of a fetch: the fetch rejects, the response has `ok = false`, or the
body does not parse as JSON. -/
def FetchOutcome.failed : FetchOutcome → Bool
  | .rejected _ => true
  | .response false _ => true
  | .response true (.error _) => true
  | .response true (.ok _) => false

/-- The URL each loader is to request: `API_BASE/mediathek/today` and
`API_BASE/mediathek/week`. -/
def Loader.url (base : String) : Loader → String
  | .loadToday => base ++ "/mediathek/today"
  | .loadWeek => base ++ "/mediathek/week"

/-- The schedule item of the spec's scenario. -/
def sampleItem : ScheduleItem :=
  { date := "2024-01-01", start := "08:00", stop := "09:00", title := "Morgenshow",
    episode := "Folge 1" }

/-- A state in which the week tab is open and one day has been loaded. -/
def sampleWeekLoaded : ViewState :=
  { active := "week", today := .arr [],
    week := .arr [DaySchedule.toJson { date := "2024-01-01", items := [sampleItem] }],
    loading := false, error := "" }

/-- A field of the response body; `none` when no body was sent or the field is absent. -/
def Response.bodyField (r : Response) (name : String) : Option Json :=
  r.body.bind fun b => b.field name

/-- A deployment whose `data/programm.json` holds the three given entries. -/
def sampleEnv (nodeEnv : Option String) : HandlerEnv :=
  { cwd := "/var/task"
    pathJoin := fun parts => "/".intercalate parts
    readFile := fun p =>
      if p = "/var/task/data/programm.json" then .ok "[1,2,3]"
      else .error "ENOENT: no such file or directory"
    jsonParse := fun c =>
      if c = "[1,2,3]" then .ok (.arr [.num 1 0, .num 2 0, .num 3 0])
      else .error "Unexpected token"
    nodeEnv := nodeEnv
    now := "2024-01-01T08:00:00.000Z" }

/-- A deployment without `data/programm.json`. -/
def sampleEnvMissing (nodeEnv : Option String) : HandlerEnv :=
  { cwd := "/var/task"
    pathJoin := fun parts => "/".intercalate parts
    readFile := fun _ => .error "ENOENT: no such file or directory"
    jsonParse := fun _ => .error "Unexpected token"
    nodeEnv := nodeEnv
    now := "2024-01-01T08:00:00.000Z" }

/-- The ids of the navigation tabs: `live`, `today`, `week`, `more`. -/
def tabIds : List String := tabs.map Prod.fst

/-- The default value of `API_BASE`. -/
def sampleBase : String := API_BASE none

/-- Two today fetches answered out of order: `today` is opened (request 0), left, and opened
again (request 1); request 1 is answered with `fresh`. -/
def staleRaceFirst (fresh : Json) : List Event :=
  [.click "today", .click "live", .click "today", .settle 1 (.response true (.ok fresh))]

/-- The same trace continued: request 0 is then answered with `stale`. -/
def staleRace (stale fresh : Json) : List Event :=
  staleRaceFirst fresh ++ [.settle 0 (.response true (.ok stale))]

/-- The state while both a today fetch (request 0) and a week fetch (request 1) are in
flight and the week tab is open. -/
def bothInFlight : Option Sys :=
  runEvents sampleBase (mount sampleBase) [.click "today", .click "week"]

/-- The state after the today fetch has then failed; the week fetch is still in flight. -/
def todayFailedWeekInFlight : Option Sys :=
  runEvents sampleBase (mount sampleBase)
    [.click "today", .click "week", .settle 0 (.rejected "Failed to fetch")]

/-- A state of the today tab with one item loaded and a new fetch in flight. -/
def sampleTodayReloading : ViewState :=
  { active := "today", today := .arr [sampleItem.toJson], week := .arr [],
    loading := true, error := "" }

/-- The state while a today fetch (request 0) and a week fetch (request 1) are both in
flight and the week tab is open, written out. -/
def sampleBothInFlight : Sys :=
  { view := { active := "week", today := .arr [], week := .arr [], loading := true, error := "" }
    pending := [(0, .loadToday), (1, .loadWeek)]
    sent := ["http://localhost:5000/mediathek/today", "http://localhost:5000/mediathek/week"] }

/-- A today fetch that fails after a later today fetch has succeeded: `today` is opened
(request 0), left, and opened again (request 1); request 1 is answered with one item, then
request 0 is rejected. -/
def failAfterFresh : List Event :=
  [.click "today", .click "live", .click "today",
   .settle 1 (.response true (.ok (.arr [sampleItem.toJson]))),
   .settle 0 (.rejected "Failed to fetch")]

/-- The week tab is opened (request 0) and left for the today tab (request 1); request 0 is
answered with status 200 and the body `null`. -/
def weekBodyNull : List Event :=
  [.click "week", .click "today", .settle 0 (.response true (.ok .null))]

/-! ## The loaders -/

/-- C1 fails without the condition that no other fetch is interleaved: the today fetch
started with `today = []` (request 0) is still in flight when a later today fetch (request 1)
succeeds with one item; when request 0 then fails, `error` is the fixed message and `today`
is the one item, not the `[]` it was when request 0 started. -/
theorem failed_fetch_list_changed_counterexample :
    (runEvents sampleBase (mount sampleBase) [.click "today"]).map
        (fun sys => (sys.view.today, sys.pending))
      = some (.arr [], [(0, Loader.loadToday)]) ∧
    (runEvents sampleBase (mount sampleBase) failAfterFresh.dropLast).map
        (fun sys => (sys.view.today, sys.pending))
      = some (.arr [sampleItem.toJson], [(0, Loader.loadToday)]) ∧
    (runEvents sampleBase (mount sampleBase) failAfterFresh).map
        (fun sys => (sys.view.today, sys.view.error, sys.pending))
      = some (.arr [sampleItem.toJson], "Konnte Daten nicht laden.", []) ∧
    Json.arr [sampleItem.toJson] ≠ Json.arr [] :=
  ⟨rfl, rfl, rfl, by simp⟩

/-- C1 as amended: for `loadToday` and `loadWeek`, every failing outcome of the fetch and
every prior state, when no other fetch is interleaved the state after the run has `error`
equal to the fixed message and the loader's list (and the other list too) equal to its value
before the run; and in every case, from whatever state the request settles in, the
continuation sets `error` to the fixed message and leaves the list as it was just before. -/
theorem load_failure_sets_error_keeps_list (base : String) (l : Loader) (o : FetchOutcome)
    (s : ViewState) (hfail : o.failed = true) :
    (applyAll s (l.run base o)).error = "Konnte Daten nicht laden." ∧
    l.list (applyAll s (l.run base o)) = l.list s ∧
    l.otherList (applyAll s (l.run base o)) = l.otherList s ∧
    (applyAll s (l.finish o)).error = "Konnte Daten nicht laden." ∧
    l.list (applyAll s (l.finish o)) = l.list s := by
  cases l <;> rcases o with _ | ⟨_ | _, _ | _⟩ <;>
    simp_all [FetchOutcome.failed, applyAll, Loader.run, Loader.start, Loader.finish,
      loadTodayStart, loadTodayFinish, loadWeekStart, loadWeekFinish, Loader.url,
      Effect.apply, Loader.list, Loader.otherList]

/-- C1 as amended, at a state with a non-empty previous list: a week fetch answered with a
non-ok status. -/
theorem load_failure_sets_error_keeps_list_witness :
    (FetchOutcome.response false (.error "Unexpected token")).failed = true ∧
    (applyAll sampleWeekLoaded
      (Loader.loadWeek.run "http://localhost:5000"
        (.response false (.error "Unexpected token")))).error = "Konnte Daten nicht laden." ∧
    Loader.loadWeek.list (applyAll sampleWeekLoaded
      (Loader.loadWeek.run "http://localhost:5000"
        (.response false (.error "Unexpected token")))) = Loader.loadWeek.list sampleWeekLoaded :=
  ⟨rfl,
   (load_failure_sets_error_keeps_list "http://localhost:5000" .loadWeek
      (.response false (.error "Unexpected token")) sampleWeekLoaded rfl).1,
   (load_failure_sets_error_keeps_list "http://localhost:5000" .loadWeek
      (.response false (.error "Unexpected token")) sampleWeekLoaded rfl).2.1⟩

/-- C2: for `loadToday` and `loadWeek`, every prior state and every successful response with
parsed body `body`, the state after the run has the loader's list equal to `body`, an empty
`error`, `loading` false, and the other tab's list unchanged. -/
theorem load_success_replaces_list (base : String) (l : Loader) (body : Json) (s : ViewState) :
    l.list (applyAll s (l.run base (.response true (.ok body)))) = body ∧
    (applyAll s (l.run base (.response true (.ok body)))).error = "" ∧
    (applyAll s (l.run base (.response true (.ok body)))).loading = false ∧
    l.otherList (applyAll s (l.run base (.response true (.ok body)))) = l.otherList s := by
  cases l <;>
    simp [applyAll, Loader.run, Loader.start, Loader.finish,
      loadTodayStart, loadTodayFinish, loadWeekStart, loadWeekFinish, Loader.url,
      Effect.apply, Loader.list, Loader.otherList]

/-- C3: for every run of `loadToday` or `loadWeek` and every outcome, the run is
`setLoading(true)`, `setError('')`, the request, one update that is not of `loading`, and
last `setLoading(false)`; the values written to `loading` are `true` then `false`, exactly
once each; one request is issued; `loading` is true and `error` empty when the request is
issued, and `loading` is false after the run. -/
theorem load_toggles_loading_once (base : String) (l : Loader) (o : FetchOutcome)
    (s : ViewState) :
    (∃ mid : Effect, l.run base o =
        [.setLoading true, .setError "", .fetch (l.url base) l, mid, .setLoading false] ∧
        loadingWrites [mid] = []) ∧
    loadingWrites (l.run base o) = [true, false] ∧
    requests (l.run base o) = [l.url base] ∧
    (applyAll s (l.start base)).loading = true ∧
    (applyAll s (l.start base)).error = "" ∧
    (applyAll s (l.run base o)).loading = false := by
  cases l <;> rcases o with _ | ⟨_ | _, _ | _⟩ <;>
    simp [applyAll, Loader.run, Loader.start, Loader.finish,
      loadTodayStart, loadTodayFinish, loadWeekStart, loadWeekFinish, Loader.url, Effect.apply,
      loadingWrites, requests]

/-! ## The programme endpoint -/

/-- C4: when `data/programm.json` is read and parses as a JSON array of `n` entries, the
response has status 200, the body is exactly `success: true, count: n, data, timestamp` with
`data` the parsed array, and the two headers are set. -/
theorem handler_serves_array (env : HandlerEnv) (contents : String) (items : List Json)
    (hread : env.readFile env.dataPath = .ok contents)
    (hparse : env.jsonParse contents = .ok (.arr items)) :
    (respond (handler env)).statusCode = 200 ∧
    (respond (handler env)).body =
      some (.obj [("success", .bool true), ("count", .num items.length 0),
                  ("data", .arr items), ("timestamp", .str env.now)]) ∧
    (respond (handler env)).header "Access-Control-Allow-Origin" = some "*" ∧
    (respond (handler env)).header "Cache-Control"
      = some "s-maxage=300, stale-while-revalidate=60" := by
  simp [handler, tryBlock, hread, hparse, Json.getLength, respond, jsonBody, Response.header,
    List.lookup]

/-- C4 on a file with three entries: status 200 and `count` 3. -/
theorem handler_serves_array_witness :
    (sampleEnv none).readFile (sampleEnv none).dataPath = .ok "[1,2,3]" ∧
    (sampleEnv none).jsonParse "[1,2,3]" = .ok (.arr [.num 1 0, .num 2 0, .num 3 0]) ∧
    (respond (handler (sampleEnv none))).statusCode = 200 ∧
    (respond (handler (sampleEnv none))).bodyField "count" = some (.num 3 0) :=
  have h := handler_serves_array (sampleEnv none) "[1,2,3]" [.num 1 0, .num 2 0, .num 3 0]
    rfl rfl
  ⟨rfl, rfl, h.1, by rw [Response.bodyField, h.2.1]; rfl⟩

/-- C5: when reading `data/programm.json` fails or its content is not valid JSON, with
`msg` the message of the error, the handler logs, answers with status 500 and sends one
body, which has `success = false` and `error = 'Programmdaten nicht verfügbar'`; `details`
is `msg` when `NODE_ENV` is `'development'` and absent otherwise; no header is set. -/
theorem handler_unavailable (env : HandlerEnv) (msg : String)
    (hfail : env.readFile env.dataPath = .error msg ∨
      ∃ contents, env.readFile env.dataPath = .ok contents ∧
        env.jsonParse contents = .error msg) :
    handler env = catchBlock env msg ∧
    (respond (handler env)).statusCode = 500 ∧
    (respond (handler env)).bodyField "success" = some (.bool false) ∧
    (respond (handler env)).bodyField "error" = some (.str "Programmdaten nicht verfügbar") ∧
    (env.nodeEnv = some "development" →
      (respond (handler env)).bodyField "details" = some (.str msg)) ∧
    (env.nodeEnv ≠ some "development" →
      (respond (handler env)).bodyField "details" = none) ∧
    (respond (handler env)).bodyField "data" = none ∧
    (respond (handler env)).headers = [] := by
  have hcalls : handler env = catchBlock env msg := by
    rcases hfail with h | ⟨c, h, hp⟩
    · simp [handler, tryBlock, h]
    · simp [handler, tryBlock, h, hp]
  rw [hcalls]
  refine ⟨rfl, rfl, ?_, ?_, ?_, ?_, ?_, rfl⟩
  · by_cases hd : env.nodeEnv = some "development" <;>
      simp [catchBlock, respond, jsonBody, Response.bodyField, Json.field, List.lookup, hd]
  · by_cases hd : env.nodeEnv = some "development" <;>
      simp [catchBlock, respond, jsonBody, Response.bodyField, Json.field, List.lookup, hd]
  · intro hd
    simp [catchBlock, respond, jsonBody, Response.bodyField, Json.field, List.lookup, hd]
  · intro hd
    simp [catchBlock, respond, jsonBody, Response.bodyField, Json.field, List.lookup, hd]
  · by_cases hd : env.nodeEnv = some "development" <;>
      simp [catchBlock, respond, jsonBody, Response.bodyField, Json.field, List.lookup, hd]

/-- C5 on a deployment without the file, outside development: status 500, no `details`. -/
theorem handler_unavailable_witness :
    (sampleEnvMissing (some "production")).readFile (sampleEnvMissing (some "production")).dataPath
      = .error "ENOENT: no such file or directory" ∧
    (respond (handler (sampleEnvMissing (some "production")))).statusCode = 500 ∧
    (respond (handler (sampleEnvMissing (some "production")))).bodyField "details" = none :=
  have h := handler_unavailable (sampleEnvMissing (some "production"))
    "ENOENT: no such file or directory" (Or.inl rfl)
  ⟨rfl, h.2.1, h.2.2.2.2.2.1 (by decide)⟩

/-! ## Tab selection and activation -/

theorem mem_tabIds {t : String} (ht : t ∈ tabIds) :
    t = "live" ∨ t = "today" ∨ t = "week" ∨ t = "more" := by
  simpa [tabIds, tabs] using ht

theorem today_url_ne_week_url (base : String) :
    Loader.loadToday.url base ≠ Loader.loadWeek.url base := by
  intro h
  have hd := congrArg String.data h
  simp only [Loader.url, String.data_append, List.append_cancel_left_eq] at hd
  exact absurd hd (by decide)

theorem step_click (base : String) (sys : Sys) {t : String} (ht : t ∈ tabIds) :
    step base sys (.click t) =
      if t = sys.view.active then some sys
      else if commits { sys.view with active := t } then
        some ((sys.perform [.setActive t]).perform (activeEffect base t))
      else some (sys.perform [.setActive t]) := by
  show (if t ∈ tabs.map Prod.fst then _ else _) = _
  exact if_pos ht

theorem commits_live_more (s : ViewState) (h : s.active = "live" ∨ s.active = "more") :
    commits s = true := by
  rcases h with h | h <;> simp [commits, PreviewApp, h, bind, Except.bind, pure, Except.pure]

theorem step_settle (base : String) (sys : Sys) (n : Nat) (o : FetchOutcome) {l : Loader}
    (h : sys.pending.lookup n = some l) :
    step base sys (.settle n o) =
      some (Sys.perform
        { view := sys.view, pending := sys.pending.filter (fun p => p.1 ≠ n), sent := sys.sent }
        (l.finish o)) := by
  simp only [step, h]

/-- C6: for every tab id `t` of the navigation and every state, `setActive(t)` sets `active`
to `t` and changes no other cell, and the whole step of clicking the tab (the setter and the
effect it triggers) ends with `active = t` and leaves `today` and `week` unchanged. -/
theorem select_tab_sets_active (base : String) (sys : Sys) (t : String) (ht : t ∈ tabIds) :
    Effect.apply sys.view (.setActive t) = { sys.view with active := t } ∧
    ∃ sys1, step base sys (.click t) = some sys1 ∧ sys1.view.active = t ∧
      sys1.view.today = sys.view.today ∧ sys1.view.week = sys.view.week := by
  refine ⟨rfl, ?_⟩
  by_cases hsame : t = sys.view.active
  · refine ⟨sys, ?_, hsame.symm, rfl, rfl⟩
    rw [step_click base sys ht, if_pos hsame]
  · by_cases hc : commits { sys.view with active := t } = true
    · refine ⟨(sys.perform [.setActive t]).perform (activeEffect base t), ?_, ?_⟩
      · rw [step_click base sys ht, if_neg hsame, if_pos hc]
      rcases mem_tabIds ht with rfl | rfl | rfl | rfl <;>
        simp [activeEffect, Sys.perform, Sys.perform1, loadTodayStart, loadWeekStart,
          Effect.apply]
    · refine ⟨sys.perform [.setActive t], ?_, rfl, rfl, rfl⟩
      rw [step_click base sys ht, if_neg hsame, if_neg hc]

/-- C6 for the tab `week`, selected from the state reached by mounting. -/
theorem select_tab_sets_active_witness :
    "week" ∈ tabIds ∧
    ∃ sys1, step sampleBase (mount sampleBase) (.click "week") = some sys1 ∧
      sys1.view.active = "week" ∧
      sys1.view.today = (mount sampleBase).view.today ∧
      sys1.view.week = (mount sampleBase).view.week :=
  ⟨by decide, (select_tab_sets_active sampleBase (mount sampleBase) "week" (by decide)).2⟩

/-- C7 fails where the render of the newly active tab throws: after the week tab has been
opened and left and its request answered with status 200 and body `null`, the state renders
(the today tab is open); a click on the week tab changes `active` to `week`, the render
throws at `week.map`, and no request is issued: the requests sent are the two from before. -/
theorem activation_without_request_counterexample :
    (runEvents sampleBase (mount sampleBase) weekBodyNull).map
        (fun sys => (sys.view.active, commits sys.view, sys.sent))
      = some ("today", true,
          ["http://localhost:5000/mediathek/week", "http://localhost:5000/mediathek/today"]) ∧
    (runEvents sampleBase (mount sampleBase) (weekBodyNull ++ [.click "week"])).map
        (fun sys => (sys.view.active, sys.sent, sys.pending))
      = some ("week",
          ["http://localhost:5000/mediathek/week", "http://localhost:5000/mediathek/today"],
          [(1, Loader.loadToday)]) ∧
    (runEvents sampleBase (mount sampleBase) (weekBodyNull ++ [.click "week"])).map
        (fun sys => PreviewApp sys.view)
      = some (.error "Cannot read properties of null (reading \x27map\x27)") :=
  ⟨rfl, rfl, rfl⟩

/-- C7 as amended: for every state and every change of `active` to a tab id `t`: when the
component renders with the new `active`, then for `t = today` exactly one request is issued,
to `API_BASE/mediathek/today`, which is not the week URL, and for `t = week` exactly one, to
`API_BASE/mediathek/week`; when the render throws, no request is issued and only `active`
has changed; for `live` and `more` the component always renders, no request is issued and
`loading`, `error`, `today` and `week` are unchanged. The state is arbitrary, so the request
is issued whether or not data was loaded before. Mounting issues no request and leaves the
initial state. -/
theorem activation_issues_request (base : String) (sys : Sys) (t : String) (ht : t ∈ tabIds)
    (hchange : sys.view.active ≠ t) :
    (∃ sys1, step base sys (.click t) = some sys1 ∧ sys1.view.active = t ∧
      (commits { sys.view with active := t } = true →
        (t = "today" → sys1.sent = sys.sent ++ [base ++ "/mediathek/today"] ∧
          sys1.pending = sys.pending ++ [(sys.sent.length, Loader.loadToday)]) ∧
        (t = "week" → sys1.sent = sys.sent ++ [base ++ "/mediathek/week"] ∧
          sys1.pending = sys.pending ++ [(sys.sent.length, Loader.loadWeek)])) ∧
      (commits { sys.view with active := t } = false →
        sys1.sent = sys.sent ∧ sys1.pending = sys.pending ∧
        sys1.view = { sys.view with active := t }) ∧
      (t = "live" ∨ t = "more" →
        commits { sys.view with active := t } = true ∧
        sys1.sent = sys.sent ∧ sys1.pending = sys.pending ∧
        sys1.view.loading = sys.view.loading ∧ sys1.view.error = sys.view.error ∧
        sys1.view.today = sys.view.today ∧ sys1.view.week = sys.view.week)) ∧
    base ++ "/mediathek/today" ≠ base ++ "/mediathek/week" ∧
    (mount base).sent = [] ∧ (mount base).pending = [] ∧
    (mount base).view = ViewState.initial := by
  refine ⟨?_, today_url_ne_week_url base, rfl, rfl, rfl⟩
  have hlm : t = "live" ∨ t = "more" → commits { sys.view with active := t } = true :=
    fun h => commits_live_more _ h
  by_cases hc : commits { sys.view with active := t } = true
  · refine ⟨(sys.perform [.setActive t]).perform (activeEffect base t), ?_, ?_⟩
    · rw [step_click base sys ht, if_neg (Ne.symm hchange), if_pos hc]
    · rcases mem_tabIds ht with rfl | rfl | rfl | rfl <;>
        simp [hc, activeEffect, Sys.perform, Sys.perform1, loadTodayStart, loadWeekStart,
          Effect.apply]
  · refine ⟨sys.perform [.setActive t], ?_, rfl, fun h => absurd h hc,
      fun _ => ⟨rfl, rfl, rfl⟩, fun h => absurd (hlm h) hc⟩
    rw [step_click base sys ht, if_neg (Ne.symm hchange), if_neg hc]

/-- C7 as amended, for re-opening the week tab from the live tab when a week is already
loaded: the week view renders and one more request to the week URL is issued. -/
theorem activation_issues_request_witness :
    "week" ∈ tabIds ∧
    commits { sampleWeekLoaded with active := "week" } = true ∧
    ∃ sys1,
      step sampleBase
        { view := { sampleWeekLoaded with active := "live" }, pending := [],
          sent := ["http://localhost:5000/mediathek/week"] }
        (.click "week") = some sys1 ∧
      sys1.sent =
        ["http://localhost:5000/mediathek/week", "http://localhost:5000/mediathek/week"] :=
  have h := (activation_issues_request sampleBase
    { view := { sampleWeekLoaded with active := "live" }, pending := [],
      sent := ["http://localhost:5000/mediathek/week"] } "week" (by decide) (by decide)).1
  ⟨by decide, rfl, h.choose, h.choose_spec.1, ((h.choose_spec.2.2.1 rfl).2 rfl).1⟩

/-! ## Requests answered out of order -/

/-- C10: no guard discards a stale response. From the mounted component, open `today`
(request 0), leave, open `today` again (request 1); when request 1 is answered with `fresh`
and then request 0 with `stale`, every step is defined, `today` is `fresh` after the first
answer and `stale`, the body of the older request, at the end; and there are such bodies
that differ. -/
theorem stale_response_overwrites (base : String) :
    (∀ stale fresh : Json,
      ∃ mid last : Sys,
        runEvents base (mount base) (staleRaceFirst fresh) = some mid ∧
        mid.view.today = fresh ∧ mid.pending = [(0, Loader.loadToday)] ∧
        mid.sent = [base ++ "/mediathek/today", base ++ "/mediathek/today"] ∧
        runEvents base (mount base) (staleRace stale fresh) = some last ∧
        last.view.today = stale ∧ last.pending = [] ∧ last.view.loading = false ∧
        last.view.error = "") ∧
    ∃ stale fresh : Json, stale ≠ fresh := by
  refine ⟨fun stale fresh => ⟨_, _, rfl, rfl, rfl, rfl, rfl, rfl, rfl, rfl, rfl⟩,
    .arr [], .null, by simp⟩

/-! ## One loading flag and one error message for both tabs -/

/-- C9 fails: with a today fetch and a week fetch both in flight and the week tab open, the
week view shows the loading indicator and no error; when the today fetch then fails, the
week fetch is still in flight, yet `loading` is false and `error` is the fixed message, and
the week view shows the error and no loading indicator. -/
theorem tab_status_shared_counterexample :
    bothInFlight.map (fun sys => (sys.view.active, sys.view.loading, sys.view.error, sys.pending))
      = some ("week", true, "", [(0, Loader.loadToday), (1, Loader.loadWeek)]) ∧
    bothInFlight.map (fun sys => weekSection sys.view)
      = some (.ok (.elem "section" "" none
          [.elem "h3" "sectionTitle" none [.text "Letzte 7 Tage"], loadingDiv, .text "",
           .list []])) ∧
    todayFailedWeekInFlight.map
        (fun sys => (sys.view.active, sys.view.loading, sys.view.error, sys.pending))
      = some ("week", false, "Konnte Daten nicht laden.", [(1, Loader.loadWeek)]) ∧
    todayFailedWeekInFlight.map (fun sys => weekSection sys.view)
      = some (.ok (.elem "section" "" none
          [.elem "h3" "sectionTitle" none [.text "Letzte 7 Tage"], .bool false,
           errorDiv "Konnte Daten nicht laden.", .list []])) :=
  ⟨rfl, rfl, rfl, rfl⟩

/-- C9 as amended: `loading` and `error` are shared by both tabs. In every state, when a
request in flight settles, whatever else is in flight, `loading` becomes false and `error`
becomes the fixed message on failure and keeps its value on success; the list of the other
tab and `active` are unchanged. -/
theorem settle_writes_shared_status (base : String) (sys : Sys) (n : Nat) (l : Loader)
    (o : FetchOutcome) (hflight : sys.pending.lookup n = some l) :
    ∃ sys1, step base sys (.settle n o) = some sys1 ∧
      sys1.view.loading = false ∧
      sys1.view.error = (if o.failed then "Konnte Daten nicht laden." else sys.view.error) ∧
      l.otherList sys1.view = l.otherList sys.view ∧
      sys1.view.active = sys.view.active ∧
      sys1.pending = sys.pending.filter (fun p => p.1 ≠ n) := by
  refine ⟨_, step_settle base sys n o hflight, ?_⟩
  cases l <;> rcases o with _ | ⟨_ | _, _ | _⟩ <;>
    simp [Sys.perform, Sys.perform1, Loader.finish, loadTodayFinish, loadWeekFinish, Effect.apply,
      Loader.otherList, FetchOutcome.failed]

/-- C9 as amended, at the state with both fetches in flight: the failing today fetch clears
`loading` and sets `error` while the week fetch stays in flight. -/
theorem settle_writes_shared_status_witness :
    sampleBothInFlight.pending.lookup 0 = some Loader.loadToday ∧
    ∃ sys1,
      step sampleBase sampleBothInFlight (.settle 0 (.rejected "Failed to fetch")) = some sys1 ∧
      sys1.view.loading = false ∧
      sys1.view.error = "Konnte Daten nicht laden." ∧
      sys1.view.week = sampleBothInFlight.view.week ∧
      sys1.pending = [(1, Loader.loadWeek)] :=
  have h := settle_writes_shared_status sampleBase sampleBothInFlight 0 .loadToday
    (.rejected "Failed to fetch") rfl
  ⟨rfl, h.choose, h.choose_spec.1, h.choose_spec.2.1, h.choose_spec.2.2.1,
    h.choose_spec.2.2.2.1, h.choose_spec.2.2.2.2.2⟩

/-! ## The today and week views -/

theorem cardBody_toJson (i : ScheduleItem) : cardBody i.toJson = .ok i.card := rfl

theorem todayCard_toJson (i : ScheduleItem) : todayCard i.toJson = .ok i.card := rfl

theorem mapThrowing_map_ok {α β γ : Type} (f : β → Except String γ) (enc : α → β)
    (g : α → γ) (hf : ∀ x, f (enc x) = .ok (g x)) (xs : List α) :
    mapThrowing f (xs.map enc) = .ok (xs.map g) := by
  induction xs with
  | nil => rfl
  | cons x xs ih => simp [mapThrowing, hf, ih]

theorem dayBlock_toJson (d : DaySchedule) : dayBlock d.toJson = .ok d.block := by
  have hcards := mapThrowing_map_ok cardBody ScheduleItem.toJson ScheduleItem.card
    cardBody_toJson d.items
  simp [dayBlock, DaySchedule.toJson, DaySchedule.block, Json.getProp, List.lookup, bind,
    Except.bind, pure, Except.pure, hcards]

/-- C8 fails: with `loading` set and one item in `today`, the today view shows the loading
indicator and, under it, the card of the item. -/
theorem cards_shown_while_loading_counterexample :
    sampleTodayReloading.loading = true ∧
    (todaySection sampleTodayReloading).map VNode.children
      = .ok [.elem "h3" "sectionTitle" none [.text "Heute"], loadingDiv, .text "",
             .list [sampleItem.card]] :=
  ⟨rfl, rfl⟩

/-- C8 as amended: when `today` holds schedule items and `week` holds day schedules, the today
view consists of its heading, the loading indicator exactly when `loading` is set, the error
message exactly when `error` is not empty, and in every case one card per item of `today`, in
list order, each with its time range `start - end`, show title and episode; the week view is
the same over `week`, with one block per day holding the day label and one card per item;
and `PreviewApp` puts the today view, or the week view, in `main` when that tab is active. -/
theorem today_week_views_render (s : ViewState) (items : List ScheduleItem)
    (days : List DaySchedule)
    (htoday : s.today = .arr (items.map ScheduleItem.toJson))
    (hweek : s.week = .arr (days.map DaySchedule.toJson)) :
    (todaySection s).map VNode.children
      = .ok [.elem "h3" "sectionTitle" none [.text "Heute"],
             if s.loading then loadingDiv else .bool false,
             if s.error = "" then .text "" else errorDiv s.error,
             .list (items.map ScheduleItem.card)] ∧
    (weekSection s).map VNode.children
      = .ok [.elem "h3" "sectionTitle" none [.text "Letzte 7 Tage"],
             if s.loading then loadingDiv else .bool false,
             if s.error = "" then .text "" else errorDiv s.error,
             .list (days.map DaySchedule.block)] ∧
    (s.active = "today" → ∃ view, todaySection s = .ok view ∧
      PreviewApp s = .ok (.elem "div" "page" none
        [header, .elem "main" "content" none [.bool false, view, .bool false, .bool false],
         nav s])) ∧
    (s.active = "week" → ∃ view, weekSection s = .ok view ∧
      PreviewApp s = .ok (.elem "div" "page" none
        [header, .elem "main" "content" none [.bool false, .bool false, view, .bool false],
         nav s])) := by
  have ht : todayCards s.today = .ok (.list (items.map ScheduleItem.card)) := by
    rw [htoday]
    show (mapThrowing todayCard (items.map ScheduleItem.toJson)).map VNode.list = _
    rw [mapThrowing_map_ok todayCard ScheduleItem.toJson ScheduleItem.card todayCard_toJson]
    rfl
  have hw : weekDays s.week = .ok (.list (days.map DaySchedule.block)) := by
    rw [hweek]
    show (mapThrowing dayBlock (days.map DaySchedule.toJson)).map VNode.list = _
    rw [mapThrowing_map_ok dayBlock DaySchedule.toJson DaySchedule.block dayBlock_toJson]
    rfl
  have hts : todaySection s = .ok (.elem "section" "" none
      [.elem "h3" "sectionTitle" none [.text "Heute"], loadingSlot s, errorSlot s,
       .list (items.map ScheduleItem.card)]) := by
    simp [todaySection, ht, bind, Except.bind, pure, Except.pure]
  have hws : weekSection s = .ok (.elem "section" "" none
      [.elem "h3" "sectionTitle" none [.text "Letzte 7 Tage"], loadingSlot s, errorSlot s,
       .list (days.map DaySchedule.block)]) := by
    simp [weekSection, hw, bind, Except.bind, pure, Except.pure]
  refine ⟨by rw [hts]; rfl, by rw [hws]; rfl, ?_, ?_⟩
  · intro hact
    refine ⟨_, hts, ?_⟩
    simp [PreviewApp, hact, hts]
  · intro hact
    refine ⟨_, hws, ?_⟩
    simp [PreviewApp, hact, hws]

/-- C8 as amended, at a state with the week tab open and one day loaded: the week view
shows the block of that day. -/
theorem today_week_views_render_witness :
    sampleWeekLoaded.today = .arr (([] : List ScheduleItem).map ScheduleItem.toJson) ∧
    sampleWeekLoaded.week
      = .arr ([{ date := "2024-01-01", items := [sampleItem] }].map DaySchedule.toJson) ∧
    (weekSection sampleWeekLoaded).map VNode.children
      = .ok [.elem "h3" "sectionTitle" none [.text "Letzte 7 Tage"],
             if sampleWeekLoaded.loading then loadingDiv else .bool false,
             if sampleWeekLoaded.error = "" then .text "" else errorDiv sampleWeekLoaded.error,
             .list ([{ date := "2024-01-01", items := [sampleItem] }].map DaySchedule.block)] :=
  ⟨rfl, rfl,
   (today_week_views_render sampleWeekLoaded [] [{ date := "2024-01-01", items := [sampleItem] }]
      rfl rfl).2.1⟩

end FreiesRadio
